import Mathlib

/-!
Verification of the EveryPoll server core: a shallow embedding of the
persistence layer (src/server/src/database/utils.ts, config.ts) and of the
HTTP controllers (src/server/src/polls/controllers.ts,
src/server/src/feed/controllers.ts) as pure Lean functions over an explicit
store, together with theorems settling the frozen specification claims.

Modelling conventions:
- The SQLite tables (Users, Polls, Answers, Votes) become lists of records;
  SQL INSERT appends to the list, SELECT becomes find?/filter.
- JavaScript string falsiness (undefined, null, empty) is modelled by the
  empty string, obtained from an association-list lookup via getD.
- SQLite LIKE with a pattern built as percent query percent is modelled as
  ASCII case-insensitive substring containment (likeContains below).
- ORDER BY created_at is modelled by an insertion sort over the byte order
  of the timestamp strings (ISO-8601 strings compare chronologically).
- LIMIT and OFFSET are modelled by take and drop after Int.toNat; the
  controllers validate limit between 1 and 50 and offset nonnegative before
  any call, so negative values never reach the store in either system.
- uuid values and timestamps are nondeterministic inputs of the real code;
  they are passed in as explicit arguments here.
-/

structure User where
  id : String
  email : Option String
  name : Option String
deriving DecidableEq

structure Poll where
  id : String
  author_id : String
  created_at : String
  question : String
deriving DecidableEq

structure Answer where
  id : String
  poll_id : String
  text : String
deriving DecidableEq

structure Vote where
  id : String
  poll_id : String
  answer_id : String
  user_id : String
  created_at : String
deriving DecidableEq

/-- The persistence store: one list per SQLite table. -/
structure Store where
  users : List User
  polls : List Poll
  answers : List Answer
  votes : List Vote
deriving DecidableEq

def emptyStore : Store := ⟨[], [], [], []⟩

/-- JS blank test (the source writes it as negation of String.trim):
true exactly when the string is all whitespace. -/
def isBlank (s : String) : Bool := s.data.all Char.isWhitespace

/-- ASCII lower-casing of one character, as SQLite LIKE applies to ASCII. -/
def lowerChar (c : Char) : Char :=
  if 'A' ≤ c ∧ c ≤ 'Z' then Char.ofNat (c.toNat + 32) else c

def isPrefixCh : List Char → List Char → Bool
  | [], _ => true
  | _ :: _, [] => false
  | a :: as, b :: bs => a == b && isPrefixCh as bs

def containsSub (needle : List Char) : List Char → Bool
  | [] => isPrefixCh needle []
  | c :: rest => isPrefixCh needle (c :: rest) || containsSub needle (rest)

/-- Model of SQLite question LIKE percent-q-percent: ASCII case-insensitive
substring containment. -/
def likeContains (pat s : String) : Bool :=
  containsSub (pat.data.map lowerChar) (s.data.map lowerChar)

/-- Byte order on strings (SQLite default BINARY collation), Bool-valued. -/
def leChars : List Char → List Char → Bool
  | [], _ => true
  | _ :: _, [] => false
  | a :: as, b :: bs => if a == b then leChars as bs else decide (a < b)

def leStr (s t : String) : Bool := leChars s.data t.data

def insertSorted (le : Poll → Poll → Bool) (x : Poll) : List Poll → List Poll
  | [] => [x]
  | y :: ys => if le x y then x :: y :: ys else y :: insertSorted le x ys

/-- Model of ORDER BY: a stable insertion sort with a Bool comparator. -/
def sortRows (le : Poll → Poll → Bool) : List Poll → List Poll
  | [] => []
  | x :: xs => insertSorted le x (sortRows le xs)

-- ========== DatabaseUtils: read operations ==========

/-- DatabaseUtils.getUserById: SELECT * FROM Users WHERE id = ? -/
def getUserById (st : Store) (id : String) : Option User :=
  st.users.find? (fun u => u.id == id)

/-- SELECT * FROM Answers WHERE poll_id = ? -/
def getPollAnswers (st : Store) (pollId : String) : List Answer :=
  st.answers.filter (fun a => a.poll_id == pollId)

/-- DatabaseUtils.getPollById: the poll row plus its answers, none if the
poll row is absent. -/
def getPollById (st : Store) (id : String) : Option (Poll × List Answer) :=
  (st.polls.find? (fun p => p.id == id)).map (fun p => (p, getPollAnswers st id))

/-- DatabaseUtils.getUserVote: SELECT * FROM Votes WHERE poll_id = ? AND user_id = ? -/
def getUserVote (st : Store) (userId pollId : String) : Option Vote :=
  st.votes.find? (fun v => v.poll_id == pollId && v.user_id == userId)

/-- GROUP BY answer_id with COUNT over a list of vote rows: one entry per
distinct answer_id present, keyed by answer_id. -/
def countsByAnswer (l : List Vote) : List (String × Nat) :=
  ((l.map Vote.answer_id).dedup).map
    (fun a => (a, l.countP (fun v => v.answer_id == a)))

/-- DatabaseUtils.getVoteCounts: counts of Votes of one poll grouped by
answer_id; answers with zero votes are absent. -/
def getVoteCounts (st : Store) (pollId : String) : List (String × Nat) :=
  countsByAnswer (st.votes.filter (fun v => v.poll_id == pollId))

/-- Inner side of the self-join in getCrossReferencedVoteCounts: the v2 rows
matching one v1 row. -/
def cohortRows (vs : List Vote) (crossPollId crossAnswerId : String) (v1 : Vote) : List Vote :=
  vs.filter (fun v2 =>
    v1.user_id == v2.user_id && v2.poll_id == crossPollId && v2.answer_id == crossAnswerId)

/-- The join FROM Votes v1 JOIN Votes v2 ON v1.user_id = v2.user_id with the
WHERE clause of getCrossReferencedVoteCounts: each matching (v1, v2) pair
contributes one copy of v1. -/
def crossJoinRows (vs : List Vote) (pollId crossPollId crossAnswerId : String) : List Vote :=
  (vs.filter (fun v1 => v1.poll_id == pollId)).flatMap
    (fun v1 => (cohortRows vs crossPollId crossAnswerId v1).map (fun _ => v1))

/-- DatabaseUtils.getCrossReferencedVoteCounts: vote counts of the base poll
restricted by a self-join on user_id to voters of crossAnswerId on
crossPollId, grouped by the base-poll answer_id. -/
def getCrossReferencedVoteCounts (st : Store) (pollId crossPollId crossAnswerId : String) :
    List (String × Nat) :=
  countsByAnswer (crossJoinRows st.votes pollId crossPollId crossAnswerId)

-- ========== DatabaseUtils: getPolls / getCrossReferenceCandidates ==========

inductive SortOrder where
  | newest
  | oldest
deriving DecidableEq

structure GetPollsOptions where
  limit : Int := 10
  offset : Int := 0
  sortBy : SortOrder := .newest
  query : Option String := none
  authorId : Option String := none

structure PollsPage where
  polls : List (Poll × List Answer)
  totalCount : Nat

/-- The WHERE clause of DatabaseUtils.getPolls: each filter participates only
when its option is truthy (present and nonempty). -/
def pollMatches (query authorId : Option String) (p : Poll) : Bool :=
  (match query with
   | none => true
   | some q => if q == "" then true else likeContains q p.question) &&
  (match authorId with
   | none => true
   | some a => if a == "" then true else p.author_id == a)

/-- DatabaseUtils.getPolls: COUNT of the matching rows, then the sorted page
of rows with their answers. -/
def getPolls (st : Store) (opts : GetPollsOptions) : PollsPage :=
  let matching := st.polls.filter (pollMatches opts.query opts.authorId)
  let sorted := match opts.sortBy with
    | .oldest => sortRows (fun p q => leStr p.created_at q.created_at) matching
    | .newest => sortRows (fun p q => leStr q.created_at p.created_at) matching
  let page := (sorted.drop opts.offset.toNat).take opts.limit.toNat
  { polls := page.map (fun p => (p, getPollAnswers st p.id)),
    totalCount := matching.length }

structure CandidateOptions where
  query : Option String := none
  excludePollIds : List String := []
  limit : Int := 10
  offset : Int := 0

/-- The WHERE clause of getCrossReferenceCandidates: id NOT IN the excluded
set (caller exclusions plus the main poll), AND the optional LIKE filter. -/
def candidateMatches (allExcludedIds : List String) (query : Option String) (p : Poll) : Bool :=
  !(allExcludedIds.contains p.id) &&
  (match query with
   | none => true
   | some q => if q == "" then true else likeContains q p.question)

/-- DatabaseUtils.getCrossReferenceCandidates: always excludes the main poll
in addition to the caller-supplied exclusions, newest first. -/
def getCrossReferenceCandidates (st : Store) (mainPollId : String)
    (opts : CandidateOptions) : PollsPage :=
  let allExcludedIds := opts.excludePollIds ++ [mainPollId]
  let matching := st.polls.filter (candidateMatches allExcludedIds opts.query)
  let sorted := sortRows (fun p q => leStr q.created_at p.created_at) matching
  { polls := ((sorted.drop opts.offset.toNat).take opts.limit.toNat).map
      (fun p => (p, getPollAnswers st p.id)),
    totalCount := matching.length }

-- ========== DatabaseUtils: write operations ==========

/-- DatabaseUtils.createUser: INSERT INTO Users. The uuid is an input. -/
def createUser (st : Store) (id : String) (email name : Option String) : User × Store :=
  let u : User := { id := id, email := email, name := name }
  (u, { st with users := st.users ++ [u] })

/-- DatabaseUtils.updateUser: none if the user row is absent; otherwise the
provided fields overwrite the row (UPDATE ... WHERE id = ?) and the updated
row is re-read. -/
def updateUser (st : Store) (id : String) (email name : Option String) :
    Option User × Store :=
  match getUserById st id with
  | none => (none, st)
  | some _ =>
    let st' : Store :=
      { st with users := st.users.map (fun u =>
          if u.id == id then
            { u with email := match email with | some e => some e | none => u.email,
                     name := match name with | some n => some n | none => u.name }
          else u) }
    (getUserById st' id, st')

/-- The answer-insertion loop of DatabaseUtils.createPoll: each answer text
is blank-checked only at its own iteration, after the poll row and the
earlier answer rows were already inserted; a blank text aborts with the rows
inserted so far still in the store. -/
def insertAnswersLoop (st : Store) (pollId : String) :
    List (String × String) → List Answer → Except String (List Answer) × Store
  | [], acc => (.ok acc, st)
  | (aid, text) :: rest, acc =>
    if isBlank text then (.error "Answer text cannot be empty", st)
    else
      let ans : Answer := { id := aid, poll_id := pollId, text := text }
      insertAnswersLoop { st with answers := st.answers ++ [ans] } pollId rest (acc ++ [ans])

/-- DatabaseUtils.createPoll: validates the question and the answer count
before any write, inserts the poll row, then runs the answer loop. The
pollId, the per-answer ids and the timestamp are inputs (uuid and clock). -/
def dbCreatePoll (st : Store) (pollId : String) (answerIds : List String)
    (createdAt authorId question : String) (answerTexts : List String) :
    Except String (Poll × List Answer) × Store :=
  if isBlank question then (.error "Poll question cannot be empty", st)
  else if answerTexts.length < 2 then (.error "Poll must have at least 2 answers", st)
  else if answerTexts.length > 10 then (.error "Poll cannot have more than 10 answers", st)
  else
    let poll : Poll := { id := pollId, author_id := authorId,
                         created_at := createdAt, question := question }
    let st1 : Store := { st with polls := st.polls ++ [poll] }
    match insertAnswersLoop st1 pollId (answerIds.zip answerTexts) [] with
    | (.ok answers, st2) => (.ok (poll, answers), st2)
    | (.error e, st2) => (.error e, st2)

/-- DatabaseUtils.createVote: the pre-insert SELECT makes the function
return null (and write nothing) when a vote for the (poll, user) pair is
already present; otherwise the row is inserted. Any thrown error is caught
and surfaced as null, mirroring the try/catch of the source. -/
def createVote (st : Store) (id createdAt userId pollId answerId : String) :
    Option Vote × Store :=
  match st.votes.find? (fun v => v.poll_id == pollId && v.user_id == userId) with
  | some _ => (none, st)
  | none =>
    let v : Vote := { id := id, poll_id := pollId, answer_id := answerId,
                      user_id := userId, created_at := createdAt }
    (some v, { st with votes := st.votes ++ [v] })

/-- The stores reachable from the empty database through the mutating
operations of DatabaseUtils, with arbitrary arguments. -/
inductive Reachable : Store → Prop where
  | init : Reachable emptyStore
  | createUser (st : Store) (id : String) (email name : Option String) :
      Reachable st → Reachable (createUser st id email name).2
  | updateUser (st : Store) (id : String) (email name : Option String) :
      Reachable st → Reachable (updateUser st id email name).2
  | createPoll (st : Store) (pollId : String) (answerIds : List String)
      (createdAt authorId question : String) (answerTexts : List String) :
      Reachable st →
      Reachable (dbCreatePoll st pollId answerIds createdAt authorId question answerTexts).2
  | createVote (st : Store) (id createdAt userId pollId answerId : String) :
      Reachable st → Reachable (createVote st id createdAt userId pollId answerId).2

/-- The uniqueness invariant of the Votes table: no two list entries share
the (poll_id, user_id) pair. -/
def VoteUniq (vs : List Vote) : Prop :=
  vs.Pairwise (fun v w => ¬(v.poll_id = w.poll_id ∧ v.user_id = w.user_id))

-- ========== Controllers ==========

/-- The request query string after parsing by Express: an association list
with distinct keys; a missing key reads as undefined (falsy). -/
def qget (query : List (String × String)) (k : String) : String :=
  (query.lookup k).getD ""

/-- The key test of the cross-reference loop: startsWith p together with the
regex p followed by one or more digits (the regex subsumes the startsWith). -/
def isPollKey (k : String) : Bool :=
  match k.data with
  | 'p' :: rest => !rest.isEmpty && rest.all Char.isDigit
  | _ => false

/-- Object.keys(req.query) filtered to the poll-reference keys, in insertion
order. -/
def pollKeys (query : List (String × String)) : List String :=
  (query.map Prod.fst).filter isPollKey

structure CrossRef where
  pollId : String
  answerId : String
  pollInfo : String × String
  answerInfo : String × String
  voteCounts : List (String × Nat)
deriving DecidableEq

structure PollDetail where
  poll : Poll
  answers : List Answer
  author : Option String × Option String
  voteCounts : List (String × Nat)
  userVote : Option String
  crossReferences : Option (List CrossRef)
deriving DecidableEq

inductive DetailResponse where
  | notFound (error message : String)
  | badRequest (error message : String)
  | ok (body : PollDetail)
deriving DecidableEq

/-- The cross-reference loop of getPollById (controller): for each poll key,
a pair with a falsy half is skipped; otherwise the referenced poll is
resolved first and then the answer membership; the first failure aborts the
whole request with the invalid-cross-reference error. -/
def processPairs (st : Store) (baseId : String) (query : List (String × String)) :
    List String → Except (String × String) (List CrossRef)
  | [] => .ok []
  | k :: rest =>
    let index := k.drop 1
    let crossPollId := qget query k
    let crossAnswerId := qget query ("a" ++ index)
    if crossPollId == "" || crossAnswerId == "" then
      processPairs st baseId query rest
    else
      match getPollById st crossPollId with
      | none =>
        .error ("Invalid cross-reference",
                "Cross-referenced poll (" ++ crossPollId ++ ") not found")
      | some (crossPoll, crossAnswers) =>
        match crossAnswers.find? (fun a => a.id == crossAnswerId) with
        | none =>
          .error ("Invalid cross-reference",
                  "Cross-referenced answer (" ++ crossAnswerId ++
                  ") does not belong to poll (" ++ crossPollId ++ ")")
        | some crossAnswer =>
          match processPairs st baseId query rest with
          | .error e => .error e
          | .ok crs =>
            .ok ({ pollId := crossPollId,
                   answerId := crossAnswerId,
                   pollInfo := (crossPoll.id, crossPoll.question),
                   answerInfo := (crossAnswer.id, crossAnswer.text),
                   voteCounts := getCrossReferencedVoteCounts st baseId crossPollId crossAnswerId
                 } :: crs)

/-- getPollById (controller, cross-reference version): the base poll with
answers, author projection, vote counts and the requesting identity vote,
plus the cross-reference results; a crossReferences list that came out empty
is omitted (none), not attached as an empty list. -/
def getPollDetail (st : Store) (auth : Option User) (pollId : String)
    (query : List (String × String)) : DetailResponse :=
  match getPollById st pollId with
  | none => .notFound "Poll not found" ("No poll found with ID: " ++ pollId)
  | some (poll, answers) =>
    let author := getUserById st poll.author_id
    let userVote := auth.bind (fun u => getUserVote st u.id pollId)
    match processPairs st pollId query (pollKeys query) with
    | .error (e, m) => .badRequest e m
    | .ok crs =>
      .ok { poll := poll,
            answers := answers,
            author := (author.map User.id, author.bind User.name),
            voteCounts := getVoteCounts st pollId,
            userVote := userVote.map Vote.answer_id,
            crossReferences := if crs.length > 0 then some crs else none }

inductive CreatePollResponse where
  | badRequest (error message : String)
  | unauthorized (error message : String)
  | serverError (message : String)
  | created (poll : Poll) (answers : List Answer)
deriving DecidableEq

/-- createPoll (controller): request validation in source order (blank
question, fewer than 2 answers, more than 10 answers, first blank answer by
index, authentication), then the database write; a database error would be
passed to the 500 handler. -/
def createPollController (st : Store) (auth : Option User) (question : String)
    (answers : List String) (pollId : String) (answerIds : List String)
    (createdAt : String) : CreatePollResponse × Store :=
  if isBlank question then
    (.badRequest "Missing question" "Poll question is required", st)
  else if answers.length < 2 then
    (.badRequest "Invalid answers" "Poll must have at least 2 answer options", st)
  else if answers.length > 10 then
    (.badRequest "Too many answers" "Poll cannot have more than 10 answer options", st)
  else
    match answers.findIdx? isBlank with
    | some i =>
      (.badRequest "Empty answer" ("Answer option " ++ toString (i + 1) ++ " is empty"), st)
    | none =>
      match auth with
      | none =>
        (.unauthorized "Authentication required" "You must be logged in to create a poll", st)
      | some user =>
        match dbCreatePoll st pollId answerIds createdAt user.id question answers with
        | (.ok (poll, answers), st') => (.created poll answers, st')
        | (.error e, st') => (.serverError e, st')

inductive VoteResponse where
  | unauthorized (error message : String)
  | badRequest (error message : String)
  | notFound (error message : String)
  | alreadyVoted (error message : String) (existingAnswerId : String)
  | serverFault (error message : String)
  | created (voteId answerId pollId createdAt : String) (voteCounts : List (String × Nat))
deriving DecidableEq

/-- voteOnPoll (controller) with the two database read points split: the
poll lookup, the answer-membership check and the duplicate-vote pre-check
read stCheck, while createVote (the INSERT and its own pre-SELECT) runs
against stWrite. A concurrent vote landing between the two reads is
modelled by stWrite holding rows that stCheck does not. -/
def voteOnPollAt (stCheck stWrite : Store) (auth : Option User) (pollId : String)
    (answerId : Option String) (voteId createdAt : String) : VoteResponse × Store :=
  match auth with
  | none => (.unauthorized "Authentication required" "You must be logged in to vote", stWrite)
  | some user =>
    let aid := answerId.getD ""
    if aid == "" then
      (.badRequest "Missing answer ID" "Answer ID is required", stWrite)
    else
      match getPollById stCheck pollId with
      | none => (.notFound "Poll not found" ("No poll found with ID: " ++ pollId), stWrite)
      | some (_, answers) =>
        if answers.any (fun a => a.id == aid) then
          match getUserVote stCheck user.id pollId with
          | some existing =>
            (.alreadyVoted "Already voted" "You have already voted on this poll"
               existing.answer_id, stWrite)
          | none =>
            match createVote stWrite voteId createdAt user.id pollId aid with
            | (none, st') =>
              (.serverFault "Vote failed" "Failed to record your vote. Please try again.", st')
            | (some v, st') =>
              (.created v.id v.answer_id v.poll_id v.created_at (getVoteCounts st' pollId), st')
        else
          (.badRequest "Invalid answer" "The provided answer ID does not belong to this poll",
           stWrite)

/-- voteOnPoll (controller) in the sequential case: both read points see the
same store. -/
def voteOnPoll (st : Store) (auth : Option User) (pollId : String)
    (answerId : Option String) (voteId createdAt : String) : VoteResponse × Store :=
  voteOnPollAt st st auth pollId answerId voteId createdAt

-- ========== Feed controllers ==========

structure FeedItem where
  poll : Poll
  answers : List Answer
  author : Option String × Option String
  voteCounts : List (String × Nat)
  userVote : Option String
deriving DecidableEq

structure Pagination where
  total : Nat
  limit : Int
  offset : Int
  hasMore : Bool
deriving DecidableEq

inductive FeedResponse where
  | badRequest (error message : String)
  | ok (polls : List FeedItem) (pagination : Pagination)
deriving DecidableEq

def parseNatCh : List Char → Nat → Option Nat
  | [], acc => some acc
  | c :: rest, acc =>
    if c.isDigit then parseNatCh rest (acc * 10 + (c.toNat - 48)) else none

/-- Base-10 integer parsing, NaN as none: the behaviour of parseInt on the
plain decimal numerals that the validated controller contract covers. -/
def parseIntStr (s : String) : Option Int :=
  match s.data with
  | [] => none
  | '-' :: rest =>
    if rest.isEmpty then none else (parseNatCh rest 0).map (fun n => -(n : Int))
  | l => (parseNatCh l 0).map (fun n => (n : Int))

/-- The numeric query parameters of the feed controllers: a missing or empty
parameter takes the default; parseInt of a non-numeral is NaN (none). -/
def parseIntParam (query : List (String × String)) (k : String) (dflt : Int) : Option Int :=
  match query.lookup k with
  | none => some dflt
  | some s => if s == "" then some dflt else parseIntStr s

/-- The poll decoration shared by the feed items: author projection, vote
counts, and the requesting identity vote. -/
def decorate (st : Store) (auth : Option User) (pa : Poll × List Answer) : FeedItem :=
  let author := getUserById st pa.1.author_id
  { poll := pa.1,
    answers := pa.2,
    author := (author.map User.id, author.bind User.name),
    voteCounts := getVoteCounts st pa.1.id,
    userVote := (auth.bind (fun u => getUserVote st u.id pa.1.id)).map Vote.answer_id }

/-- getFeed (controller): reads limit, offset, q and sort from the query
(nothing else), validates limit in 1..50, offset nonnegative, sort in the
two-element set, then pages with getPolls and decorates. -/
def getFeed (st : Store) (auth : Option User) (query : List (String × String)) :
    FeedResponse :=
  match parseIntParam query "limit" 10 with
  | none => .badRequest "Invalid limit" "Limit must be a number between 1 and 50"
  | some limit =>
    if limit < 1 || limit > 50 then
      .badRequest "Invalid limit" "Limit must be a number between 1 and 50"
    else
      match parseIntParam query "offset" 0 with
      | none => .badRequest "Invalid offset" "Offset must be a non-negative number"
      | some offset =>
        if offset < 0 then
          .badRequest "Invalid offset" "Offset must be a non-negative number"
        else
          let sortStr := qget query "sort"
          let sortBy := if sortStr == "" || sortStr == "newest" then some SortOrder.newest
            else if sortStr == "oldest" then some SortOrder.oldest else none
          match sortBy with
          | none => .badRequest "Invalid sort parameter" "Sort must be either newest or oldest"
          | some sb =>
            let result := getPolls st
              { limit := limit, offset := offset, sortBy := sb,
                query := query.lookup "q", authorId := none }
            .ok (result.polls.map (decorate st auth))
              { total := result.totalCount, limit := limit, offset := offset,
                hasMore := decide ((offset + limit : Int) < (result.totalCount : Int)) }

structure SearchItem where
  poll : Poll
  answers : List Answer
  author : Option String × Option String
deriving DecidableEq

inductive SearchResponse where
  | notFound (error message : String)
  | badRequest (error message : String)
  | ok (polls : List SearchItem) (pagination : Pagination)
deriving DecidableEq

/-- The exclusion list of searchCrossReferences: the values of the poll-reference
keys of the query whose value is truthy. -/
def excludeIdsOf (query : List (String × String)) : List String :=
  (query.filter (fun kv => isPollKey kv.1 && !(kv.2 == ""))).map Prod.snd

/-- searchCrossReferences (controller): existence of the main poll, the
q. limit and offset parameters with the same validation as the feed, the
excluded ids from the poll-reference keys, then getCrossReferenceCandidates
and the author decoration. -/
def searchCrossReferences (st : Store) (pollId : String)
    (query : List (String × String)) : SearchResponse :=
  match getPollById st pollId with
  | none => .notFound "Poll not found" ("No poll found with ID: " ++ pollId)
  | some _ =>
    match parseIntParam query "limit" 10 with
    | none => .badRequest "Invalid limit" "Limit must be a number between 1 and 50"
    | some limit =>
      if limit < 1 || limit > 50 then
        .badRequest "Invalid limit" "Limit must be a number between 1 and 50"
      else
        match parseIntParam query "offset" 0 with
        | none => .badRequest "Invalid offset" "Offset must be a non-negative number"
        | some offset =>
          if offset < 0 then
            .badRequest "Invalid offset" "Offset must be a non-negative number"
          else
            let result := getCrossReferenceCandidates st pollId
              { query := query.lookup "q", excludePollIds := excludeIdsOf query,
                limit := limit, offset := offset }
            .ok (result.polls.map (fun pa =>
                  { poll := pa.1, answers := pa.2,
                    author := ((getUserById st pa.1.author_id).map User.id,
                               (getUserById st pa.1.author_id).bind User.name) }))
              { total := result.totalCount, limit := limit, offset := offset,
                hasMore := decide ((offset + limit : Int) < (result.totalCount : Int)) }

-- ========== Derived quantities used by the claim statements ==========

/-- True when some vote in the list is the given user voting the given
answer on the given poll. -/
def votedForB (vs : List Vote) (pollId answerId userId : String) : Bool :=
  vs.any (fun v => v.user_id == userId && v.poll_id == pollId && v.answer_id == answerId)

/-- The distinct users who voted the answer a on the base poll and also
voted refAnswerId on refPollId (the cohort members choosing a). -/
def bothVoters (vs : List Vote) (baseId a refPollId refAnswerId : String) : List String :=
  ((vs.filter (fun v =>
      v.poll_id == baseId && v.answer_id == a &&
      votedForB vs refPollId refAnswerId v.user_id)).map Vote.user_id).dedup

/-- The distinct users who voted the answer a on poll p. -/
def votersOf (vs : List Vote) (p a : String) : List String :=
  ((vs.filter (fun v => v.poll_id == p && v.answer_id == a)).map Vote.user_id).dedup

/-- The poll ids of a feed response, none on an error response. -/
def feedPollIds : FeedResponse → Option (List String)
  | .ok items _ => some (items.map (fun it => it.poll.id))
  | .badRequest _ _ => none

/-- The hasMore flag of a feed response, none on an error response. -/
def feedHasMore : FeedResponse → Option Bool
  | .ok _ pag => some pag.hasMore
  | .badRequest _ _ => none

-- ========== General list lemmas ==========

theorem sum_map_ite_one {α : Type} (p : α → Bool) (l : List α) :
    (l.map (fun x => if p x then 1 else 0)).sum = l.countP p := by
  induction l with
  | nil => simp
  | cons a t ih =>
    by_cases h : p a = true
    · simp [List.countP_cons, h, ih, Nat.add_comm]
    · simp [List.countP_cons, h, ih]

theorem countP_map_const {α β : Type} (p : β → Bool) (c : β) (l : List α) :
    (l.map (fun _ => c)).countP p = if p c then l.length else 0 := by
  induction l with
  | nil => simp
  | cons a t ih =>
    by_cases h : p c = true
    · simp only [List.map_cons, List.countP_cons, h, ih, if_true, List.length_cons]
    · simp only [List.map_cons, List.countP_cons, h, ih, if_false, Bool.false_eq_true,
        List.length_cons]

theorem lookup_keyed_map (keys : List String) (g : String → Nat) (a : String) :
    (keys.map (fun k => (k, g k))).lookup a =
      if a ∈ keys then some (g a) else none := by
  induction keys with
  | nil => simp
  | cons k rest ih =>
    by_cases h : a = k
    · subst h
      simp [List.lookup_cons]
    · have hbeq : (a == k) = false := beq_false_of_ne h
      simp [List.lookup_cons, hbeq, ih, h]

theorem lookup_countsByAnswer (l : List Vote) (a : String) :
    (countsByAnswer l).lookup a =
      if l.countP (fun v => v.answer_id == a) = 0 then none
      else some (l.countP (fun v => v.answer_id == a)) := by
  unfold countsByAnswer
  rw [lookup_keyed_map]
  by_cases h : a ∈ l.map Vote.answer_id
  · have : 0 < l.countP (fun v => v.answer_id == a) := by
      rw [List.countP_pos_iff]
      rcases List.mem_map.mp h with ⟨v, hv, hva⟩
      exact ⟨v, hv, by simp [hva]⟩
    simp [h, Nat.pos_iff_ne_zero.mp this]
  · have : l.countP (fun v => v.answer_id == a) = 0 := by
      rw [List.countP_eq_zero]
      intro v hv hva
      exact h (List.mem_map.mpr ⟨v, hv, by simpa using hva⟩)
    simp [h, this]

theorem mem_insertSorted {le : Poll → Poll → Bool} {x y : Poll} {l : List Poll} :
    y ∈ insertSorted le x l ↔ y = x ∨ y ∈ l := by
  induction l with
  | nil => simp [insertSorted]
  | cons a t ih =>
    by_cases h : le x a = true
    · simp [insertSorted, h]
    · simp [insertSorted, h, ih]
      tauto

theorem mem_sortRows {le : Poll → Poll → Bool} {y : Poll} {l : List Poll} :
    y ∈ sortRows le l ↔ y ∈ l := by
  induction l with
  | nil => simp [sortRows]
  | cons a t ih =>
    simp [sortRows, mem_insertSorted, ih]

-- ========== Lemmas about the uniqueness invariant and the self-join ==========

theorem voteUniq_countP_le_one {vs : List Vote} (hu : VoteUniq vs)
    (p : Vote → Bool) (pid uid : String)
    (hp : ∀ v, p v = true → v.poll_id = pid ∧ v.user_id = uid) :
    vs.countP p ≤ 1 := by
  induction vs with
  | nil => simp
  | cons a t ih =>
    rcases List.pairwise_cons.mp hu with ⟨ha, ht⟩
    by_cases h : p a = true
    · have : t.countP p = 0 := by
        rw [List.countP_eq_zero]
        intro b hb hpb
        exact ha b hb ⟨(hp a h).1.trans (hp b hpb).1.symm,
          (hp a h).2.trans (hp b hpb).2.symm⟩
      simp [List.countP_cons, h, this]
    · simpa [List.countP_cons, h] using ih ht

theorem voteUniq_eq_of_samePair {vs : List Vote} (hu : VoteUniq vs)
    {v w : Vote} (hv : v ∈ vs) (hw : w ∈ vs)
    (hp : v.poll_id = w.poll_id) (huid : v.user_id = w.user_id) : v = w := by
  induction vs with
  | nil => cases hv
  | cons a t ih =>
    rcases List.pairwise_cons.mp hu with ⟨ha, ht⟩
    rcases List.mem_cons.mp hv with hv1 | hv1
    · rcases List.mem_cons.mp hw with hw1 | hw1
      · rw [hv1, hw1]
      · subst hv1
        exact absurd ⟨hp, huid⟩ (ha w hw1)
    · rcases List.mem_cons.mp hw with hw1 | hw1
      · subst hw1
        exact absurd ⟨hp.symm, huid.symm⟩ (ha v hv1)
      · exact ih ht hv1 hw1

theorem cohortRows_length {vs : List Vote} (hu : VoteUniq vs)
    (cp ca : String) (v1 : Vote) :
    (cohortRows vs cp ca v1).length =
      if votedForB vs cp ca v1.user_id then 1 else 0 := by
  unfold cohortRows
  rw [← List.countP_eq_length_filter]
  have hle : vs.countP (fun v2 =>
      v1.user_id == v2.user_id && v2.poll_id == cp && v2.answer_id == ca) ≤ 1 := by
    refine voteUniq_countP_le_one hu _ cp v1.user_id (fun v hv => ?_)
    simp only [Bool.and_eq_true, beq_iff_eq] at hv
    exact ⟨hv.1.2, hv.1.1.symm⟩
  by_cases h : votedForB vs cp ca v1.user_id = true
  · rcases List.any_eq_true.mp h with ⟨w, hw, hwp⟩
    simp only [Bool.and_eq_true, beq_iff_eq] at hwp
    have hpos : 0 < vs.countP (fun v2 =>
        v1.user_id == v2.user_id && v2.poll_id == cp && v2.answer_id == ca) := by
      rw [List.countP_pos_iff]
      exact ⟨w, hw, by simp [hwp.1.1, hwp.1.2, hwp.2]⟩
    simp [h]
    omega
  · have : vs.countP (fun v2 =>
        v1.user_id == v2.user_id && v2.poll_id == cp && v2.answer_id == ca) = 0 := by
      rw [List.countP_eq_zero]
      intro v hv hvp
      simp only [Bool.and_eq_true, beq_iff_eq] at hvp
      apply absurd h
      simp only [ne_eq, Bool.not_eq_true] at *
      intro hfalse
      have : votedForB vs cp ca v1.user_id = true :=
        List.any_eq_true.mpr ⟨v, hv, by simp [hvp.1.1, hvp.1.2, hvp.2]⟩
      rw [hfalse] at this
      cases this
    simp [h, this]

theorem countP_crossJoinRows {vs : List Vote} (hu : VoteUniq vs)
    (b cp ca a : String) :
    (crossJoinRows vs b cp ca).countP (fun v => v.answer_id == a) =
      vs.countP (fun v =>
        v.poll_id == b && v.answer_id == a && votedForB vs cp ca v.user_id) := by
  unfold crossJoinRows
  rw [List.countP_flatMap]
  have hmap : ∀ v1 ∈ vs.filter (fun v1 => v1.poll_id == b),
      ((List.countP (fun v => v.answer_id == a)) ∘
        (fun v1 => (cohortRows vs cp ca v1).map (fun _ => v1))) v1 =
      (fun v1 => if (v1.answer_id == a && votedForB vs cp ca v1.user_id) then 1 else 0) v1 := by
    intro v1 _
    simp only [Function.comp]
    rw [countP_map_const]
    by_cases h : (v1.answer_id == a) = true
    · rw [if_pos h, cohortRows_length hu]
      by_cases h2 : votedForB vs cp ca v1.user_id = true
      · simp [h, h2]
      · simp only [Bool.not_eq_true] at h2
        simp [h, h2]
    · simp only [Bool.not_eq_true] at h
      simp [h]
  rw [List.map_congr_left hmap, sum_map_ite_one, List.countP_filter]
  apply List.countP_congr
  intro v _
  constructor
  · intro hv
    simp only [Bool.and_eq_true] at *
    exact ⟨⟨hv.2, hv.1.1⟩, hv.1.2⟩
  · intro hv
    simp only [Bool.and_eq_true] at *
    exact ⟨⟨hv.1.2, hv.2⟩, hv.1.1⟩

theorem voters_map_nodup {vs : List Vote} (hu : VoteUniq vs)
    (q : Vote → Bool) (b : String) (hq : ∀ v, q v = true → v.poll_id = b) :
    ((vs.filter q).map Vote.user_id).Nodup := by
  have hpw : VoteUniq (vs.filter q) := List.Pairwise.filter q hu
  refine List.Nodup.map_on ?_ ?_
  · intro x hx y hy hxy
    rcases List.mem_filter.mp hx with ⟨_, hqx⟩
    rcases List.mem_filter.mp hy with ⟨_, hqy⟩
    exact voteUniq_eq_of_samePair hpw hx hy ((hq x hqx).trans (hq y hqy).symm) hxy
  · exact hpw.imp (fun h heq => h (by rw [heq]; exact ⟨rfl, rfl⟩))

theorem bothVoters_length {vs : List Vote} (hu : VoteUniq vs) (b a cp ca : String) :
    (bothVoters vs b a cp ca).length =
      vs.countP (fun v =>
        v.poll_id == b && v.answer_id == a && votedForB vs cp ca v.user_id) := by
  unfold bothVoters
  have hn := voters_map_nodup hu
    (fun v => v.poll_id == b && v.answer_id == a && votedForB vs cp ca v.user_id) b
    (fun v hv => by
      simp only [Bool.and_eq_true, beq_iff_eq] at hv
      exact hv.1.1)
  rw [List.Nodup.dedup hn, List.length_map, ← List.countP_eq_length_filter]

theorem crossCounts_lookup {st : Store} (hu : VoteUniq st.votes) (b cp ca a : String) :
    (getCrossReferencedVoteCounts st b cp ca).lookup a =
      if (bothVoters st.votes b a cp ca).length = 0 then none
      else some ((bothVoters st.votes b a cp ca).length) := by
  unfold getCrossReferencedVoteCounts
  rw [lookup_countsByAnswer, countP_crossJoinRows hu, bothVoters_length hu]

theorem crossCounts_empty_cohort {st : Store} (b cp ca : String)
    (hcoh : ∀ u, votedForB st.votes cp ca u = false) :
    getCrossReferencedVoteCounts st b cp ca = [] := by
  unfold getCrossReferencedVoteCounts
  have hjoin : crossJoinRows st.votes b cp ca = [] := by
    unfold crossJoinRows
    rw [List.flatMap_eq_nil_iff]
    intro v1 _
    rw [List.map_eq_nil_iff]
    unfold cohortRows
    rw [List.filter_eq_nil_iff]
    intro v2 hv2 hp
    simp only [Bool.and_eq_true, beq_iff_eq] at hp
    have := hcoh v1.user_id
    rw [show votedForB st.votes cp ca v1.user_id = true from
      List.any_eq_true.mpr ⟨v2, hv2, by simp [hp.1.1.symm, hp.1.2, hp.2]⟩] at this
    cases this
  rw [hjoin]
  rfl

-- ========== Lemmas about the write operations ==========

theorem insertAnswersLoop_votes (st : Store) (pid : String)
    (l : List (String × String)) (acc : List Answer) :
    (insertAnswersLoop st pid l acc).2.votes = st.votes := by
  induction l generalizing st acc with
  | nil => rfl
  | cons p rest ih =>
    rcases p with ⟨aid, text⟩
    by_cases h : isBlank text = true
    · simp [insertAnswersLoop, h]
    · simp only [Bool.not_eq_true] at h
      simp [insertAnswersLoop, h, ih]

theorem dbCreatePoll_votes (st : Store) (pollId : String) (answerIds : List String)
    (createdAt authorId question : String) (answerTexts : List String) :
    (dbCreatePoll st pollId answerIds createdAt authorId question answerTexts).2.votes
      = st.votes := by
  unfold dbCreatePoll
  by_cases h1 : isBlank question = true
  · simp [h1]
  · simp only [Bool.not_eq_true] at h1
    by_cases h2 : answerTexts.length < 2
    · simp [h1, h2]
    · by_cases h3 : answerTexts.length > 10
      · simp [h1, h2, h3]
      · simp only [h1, h2, h3, Bool.false_eq_true, if_false]
        rcases hres : insertAnswersLoop
            ⟨st.users, st.polls ++ [⟨pollId, authorId, createdAt, question⟩],
             st.answers, st.votes⟩
            pollId (answerIds.zip answerTexts) [] with ⟨r, st2⟩
        have hl := insertAnswersLoop_votes
          ⟨st.users, st.polls ++ [⟨pollId, authorId, createdAt, question⟩],
           st.answers, st.votes⟩
          pollId (answerIds.zip answerTexts) []
        rw [hres] at hl
        rw [hres]
        rcases r with e | answers
        · exact hl
        · exact hl

theorem updateUser_votes (st : Store) (id : String) (email name : Option String) :
    (updateUser st id email name).2.votes = st.votes := by
  unfold updateUser
  rcases h : getUserById st id with _ | u
  · rfl
  · rfl

theorem createVote_voteUniq (st : Store) (id createdAt userId pollId answerId : String)
    (hu : VoteUniq st.votes) :
    VoteUniq (createVote st id createdAt userId pollId answerId).2.votes := by
  unfold createVote
  rcases h : st.votes.find? (fun v => v.poll_id == pollId && v.user_id == userId)
    with _ | ex
  · rw [h]
    unfold VoteUniq
    rw [List.pairwise_append]
    refine ⟨hu, List.pairwise_singleton _ _, ?_⟩
    intro v hv w hw
    rw [List.mem_singleton] at hw
    subst hw
    intro hpair
    have := List.find?_eq_none.mp h v hv
    simp only [Bool.and_eq_true, beq_iff_eq, not_and] at this
    exact this hpair.1 hpair.2
  · rw [h]
    exact hu

/-- Every store reachable through the DatabaseUtils operations satisfies the
vote-uniqueness invariant. -/
theorem reachable_voteUniq {st : Store} (h : Reachable st) : VoteUniq st.votes := by
  induction h with
  | init => exact List.Pairwise.nil
  | createUser st id email name _ ih => exact ih
  | updateUser st id email name _ ih =>
    rw [updateUser_votes]
    exact ih
  | createPoll st pollId answerIds createdAt authorId question answerTexts _ ih =>
    rw [dbCreatePoll_votes]
    exact ih
  | createVote st id createdAt userId pollId answerId _ ih =>
    exact createVote_voteUniq st id createdAt userId pollId answerId ih

/-- The answer row built by one iteration of the createPoll loop. -/
def mkAnswer (pid : String) (p : String × String) : Answer :=
  { id := p.1, poll_id := pid, text := p.2 }

theorem insertAnswersLoop_ok (st : Store) (pid : String)
    (l : List (String × String)) (acc : List Answer)
    (h : ∀ p ∈ l, isBlank p.2 = false) :
    insertAnswersLoop st pid l acc =
      (.ok (acc ++ l.map (mkAnswer pid)),
       { st with answers := st.answers ++ l.map (mkAnswer pid) }) := by
  induction l generalizing st acc with
  | nil => simp [insertAnswersLoop]
  | cons p rest ih =>
    rcases p with ⟨aid, text⟩
    have hb : isBlank text = false := h (aid, text) (List.mem_cons_self _ _)
    simp only [insertAnswersLoop, hb, Bool.false_eq_true, if_false]
    rw [ih _ _ (fun q hq => h q (List.mem_cons_of_mem _ hq))]
    simp [mkAnswer, List.append_assoc]

theorem insertAnswersLoop_blankAbort (st : Store) (pid : String)
    (l1 : List (String × String)) (aid bad : String) (l2 : List (String × String))
    (acc : List Answer)
    (h1 : ∀ p ∈ l1, isBlank p.2 = false) (hbad : isBlank bad = true) :
    insertAnswersLoop st pid (l1 ++ (aid, bad) :: l2) acc =
      (.error "Answer text cannot be empty",
       { st with answers := st.answers ++ l1.map (mkAnswer pid) }) := by
  induction l1 generalizing st acc with
  | nil => simp [insertAnswersLoop, hbad]
  | cons p rest ih =>
    rcases p with ⟨qid, text⟩
    have hb : isBlank text = false := h1 (qid, text) (List.mem_cons_self _ _)
    simp only [List.cons_append, insertAnswersLoop, hb, Bool.false_eq_true, if_false,
      List.append_eq]
    rw [ih _ _ (fun q hq => h1 q (List.mem_cons_of_mem _ hq))]
    simp [mkAnswer, List.append_assoc]

-- ========== Lemmas about the cross-reference loop ==========

theorem processPairs_skip (st : Store) (b : String) (query : List (String × String))
    (keys : List String)
    (h : ∀ k ∈ keys, qget query k = "" ∨ qget query ("a" ++ k.drop 1) = "") :
    processPairs st b query keys = .ok [] := by
  induction keys with
  | nil => rfl
  | cons k rest ih =>
    have hk := h k (List.mem_cons_self _ _)
    have hcond : (qget query k == "" || qget query ("a" ++ k.drop 1) == "") = true := by
      rcases hk with hk | hk <;> simp [hk]
    simp only [processPairs, hcond, if_true]
    exact ih (fun q hq => h q (List.mem_cons_of_mem _ hq))

theorem processPairs_voteCounts (st : Store) (b : String)
    (query : List (String × String)) (keys : List String) (crs : List CrossRef)
    (h : processPairs st b query keys = .ok crs) :
    ∀ cr ∈ crs, cr.voteCounts = getCrossReferencedVoteCounts st b cr.pollId cr.answerId := by
  induction keys generalizing crs with
  | nil =>
    simp only [processPairs] at h
    cases h
    intro cr hcr
    cases hcr
  | cons k rest ih =>
    simp only [processPairs] at h
    by_cases hcond : (qget query k == "" || qget query ("a" ++ k.drop 1) == "") = true
    · rw [if_pos hcond] at h
      exact ih crs h
    · rw [if_neg hcond] at h
      rcases hpoll : getPollById st (qget query k) with _ | pr
      · rw [hpoll] at h
        cases h
      · rw [hpoll] at h
        rcases pr with ⟨crossPoll, crossAnswers⟩
        simp only [] at h
        rcases hfind : crossAnswers.find? (fun a => a.id == qget query ("a" ++ k.drop 1))
          with _ | crossAnswer
        · rw [hfind] at h
          cases h
        · rw [hfind] at h
          simp only [] at h
          rcases hrec : processPairs st b query rest with e | crs'
          · rw [hrec] at h
            cases h
          · rw [hrec] at h
            cases h
            intro cr hcr
            rcases List.mem_cons.mp hcr with hcr1 | hcr1
            · subst hcr1
              rfl
            · exact ih crs' hrec cr hcr1

theorem getPollDetail_eq (st : Store) (auth : Option User) (pollId : String)
    (query : List (String × String)) (poll : Poll) (answers : List Answer)
    (h : getPollById st pollId = some (poll, answers)) :
    getPollDetail st auth pollId query =
      match processPairs st pollId query (pollKeys query) with
      | .error (e, m) => .badRequest e m
      | .ok crs =>
        .ok { poll := poll,
              answers := answers,
              author := ((getUserById st poll.author_id).map User.id,
                         (getUserById st poll.author_id).bind User.name),
              voteCounts := getVoteCounts st pollId,
              userVote := (auth.bind (fun u => getUserVote st u.id pollId)).map Vote.answer_id,
              crossReferences := if crs.length > 0 then some crs else none } := by
  unfold getPollDetail
  rw [h]

-- ========== Lemmas about getPolls and the candidate search ==========

theorem mem_getPolls {st : Store} {opts : GetPollsOptions} {pa : Poll × List Answer}
    (h : pa ∈ (getPolls st opts).polls) :
    pa.1 ∈ st.polls ∧ pollMatches opts.query opts.authorId pa.1 = true ∧
      pa.2 = getPollAnswers st pa.1.id := by
  obtain ⟨lim, off, sb, qy, aid⟩ := opts
  unfold getPolls at h
  simp only [List.mem_map] at h
  rcases h with ⟨p, hp, hpa⟩
  have hmem : p ∈ st.polls.filter (pollMatches qy aid) := by
    have h1 := List.mem_of_mem_take hp
    have h2 := List.mem_of_mem_drop h1
    rcases sb with _ | _
    · exact mem_sortRows.mp h2
    · exact mem_sortRows.mp h2
  rcases List.mem_filter.mp hmem with ⟨hin, hmat⟩
  rw [← hpa]
  exact ⟨hin, hmat, rfl⟩

theorem mem_candidates {st : Store} {mainPollId : String} {opts : CandidateOptions}
    {pa : Poll × List Answer}
    (h : pa ∈ (getCrossReferenceCandidates st mainPollId opts).polls) :
    pa.1 ∈ st.polls ∧
      candidateMatches (opts.excludePollIds ++ [mainPollId]) opts.query pa.1 = true := by
  unfold getCrossReferenceCandidates at h
  simp only [List.mem_map] at h
  rcases h with ⟨p, hp, hpa⟩
  have hmem : p ∈ st.polls.filter
      (candidateMatches (opts.excludePollIds ++ [mainPollId]) opts.query) :=
    mem_sortRows.mp (List.mem_of_mem_drop (List.mem_of_mem_take hp))
  rcases List.mem_filter.mp hmem with ⟨hin, hmat⟩
  rw [← hpa]
  exact ⟨hin, hmat⟩

theorem candidate_id_excluded {st : Store} {mainPollId : String} {opts : CandidateOptions}
    {pa : Poll × List Answer}
    (h : pa ∈ (getCrossReferenceCandidates st mainPollId opts).polls) :
    pa.1.id ≠ mainPollId ∧ pa.1.id ∉ opts.excludePollIds := by
  rcases mem_candidates h with ⟨_, hmat⟩
  unfold candidateMatches at hmat
  rcases Bool.and_eq_true_iff.mp hmat with ⟨hnc, _⟩
  rw [Bool.not_eq_eq_eq_not, Bool.not_true] at hnc
  have hnm : pa.1.id ∉ opts.excludePollIds ++ [mainPollId] := by
    intro hmemx
    have : (opts.excludePollIds ++ [mainPollId]).contains pa.1.id = true := by
      simpa using hmemx
    rw [this] at hnc
    cases hnc
  constructor
  · intro heq
    exact hnm (List.mem_append.mpr (Or.inr (by simp [heq])))
  · intro hmemx
    exact hnm (List.mem_append.mpr (Or.inl hmemx))

theorem getFeed_ok_hasMore {st : Store} {auth : Option User}
    {query : List (String × String)} {items : List FeedItem} {pag : Pagination}
    (h : getFeed st auth query = .ok items pag) :
    pag.hasMore = decide ((pag.offset + pag.limit : Int) < (pag.total : Int)) := by
  unfold getFeed at h
  rcases hl : parseIntParam query "limit" 10 with _ | limit
  · rw [hl] at h
    cases h
  · rw [hl] at h
    simp only [] at h
    by_cases hlr : (limit < 1 || limit > 50) = true
    · rw [if_pos hlr] at h
      cases h
    · rw [if_neg hlr] at h
      rcases ho : parseIntParam query "offset" 0 with _ | offset
      · rw [ho] at h
        cases h
      · rw [ho] at h
        simp only [] at h
        by_cases hor : offset < 0
        · rw [if_pos hor] at h
          cases h
        · rw [if_neg hor] at h
          by_cases hs1 : (qget query "sort" == "" || qget query "sort" == "newest") = true
          · rw [if_pos hs1] at h
            simp only [] at h
            cases h
            rfl
          · rw [if_neg hs1] at h
            by_cases hs2 : (qget query "sort" == "oldest") = true
            · rw [if_pos hs2] at h
              simp only [] at h
              cases h
              rfl
            · rw [if_neg hs2] at h
              cases h

theorem searchCR_ok_excludes {st : Store} {pid : String}
    {query : List (String × String)} {items : List SearchItem} {pag : Pagination}
    (h : searchCrossReferences st pid query = .ok items pag) :
    ∀ it ∈ items, it.poll.id ≠ pid ∧ it.poll.id ∉ excludeIdsOf query := by
  unfold searchCrossReferences at h
  rcases hp : getPollById st pid with _ | pr
  · rw [hp] at h
    cases h
  · rw [hp] at h
    simp only [] at h
    rcases hl : parseIntParam query "limit" 10 with _ | limit
    · rw [hl] at h
      cases h
    · rw [hl] at h
      simp only [] at h
      by_cases hlr : (limit < 1 || limit > 50) = true
      · rw [if_pos hlr] at h
        cases h
      · rw [if_neg hlr] at h
        rcases ho : parseIntParam query "offset" 0 with _ | offset
        · rw [ho] at h
          cases h
        · rw [ho] at h
          simp only [] at h
          by_cases hor : offset < 0
          · rw [if_pos hor] at h
            cases h
          · rw [if_neg hor] at h
            cases h
            intro it hit
            simp only [List.mem_map] at hit
            rcases hit with ⟨pa, hpa, hform⟩
            have hex := candidate_id_excluded hpa
            rw [← hform]
            exact hex

/-- The poll selection of getPolls reads only the Polls and Answers tables:
replacing the Votes table changes nothing. -/
theorem getPolls_votes_indep (st : Store) (vs : List Vote) (opts : GetPollsOptions) :
    getPolls { st with votes := vs } opts = getPolls st opts := rfl

theorem getPolls_totalCount_all (st : Store) (lim off : Int) (sb : SortOrder) :
    (getPolls st { limit := lim, offset := off, sortBy := sb }).totalCount
      = st.polls.length := by
  unfold getPolls
  simp only []
  have hall : ∀ p ∈ st.polls, pollMatches none none p = (fun _ => true) p :=
    fun p _ => rfl
  rw [List.filter_congr hall, List.filter_true]

theorem getPollDetail_crossRefs {st : Store} {auth : Option User} {pollId : String}
    {query : List (String × String)} {body : PollDetail}
    (h : getPollDetail st auth pollId query = .ok body) :
    body.crossReferences = none ∨
    ∃ crs, processPairs st pollId query (pollKeys query) = .ok crs ∧
      body.crossReferences = some crs := by
  unfold getPollDetail at h
  rcases hp : getPollById st pollId with _ | pr
  · rw [hp] at h
    cases h
  · rw [hp] at h
    rcases pr with ⟨poll, answers⟩
    simp only [] at h
    rcases hpp : processPairs st pollId query (pollKeys query) with e | crs0
    · rw [hpp] at h
      rcases e with ⟨e1, e2⟩
      cases h
    · rw [hpp] at h
      cases h
      by_cases hlen : crs0.length > 0
      · right
        exact ⟨crs0, rfl, by simp [hlen]⟩
      · left
        simp [hlen]

-- ========== Concrete fixtures used by witnesses and counterexamples ==========

/-- The Cats-or-Dogs fixture of the spec testable properties: base poll A
with answers a1, a2; reference poll B with answers b1, b2; u1 voted a1 on A
and b1 on B; u2 voted a2 on A and b1 on B; nobody voted b2. -/
def wStore : Store :=
  ⟨[⟨"u1", none, none⟩, ⟨"u2", none, none⟩],
   [⟨"A", "u1", "1", "Cats or Dogs?"⟩, ⟨"B", "u1", "2", "Morning or Night?"⟩],
   [⟨"a1", "A", "Cats"⟩, ⟨"a2", "A", "Dogs"⟩, ⟨"b1", "B", "Morning"⟩, ⟨"b2", "B", "Night"⟩],
   [⟨"v1", "A", "a1", "u1", "3"⟩, ⟨"v2", "A", "a2", "u2", "4"⟩,
    ⟨"v3", "B", "b1", "u1", "5"⟩, ⟨"v4", "B", "b1", "u2", "6"⟩]⟩

/-- Two polls by the same author with the same question text; u1 voted only
on poll p1. -/
def vStore : Store :=
  ⟨[⟨"u1", none, none⟩],
   [⟨"p1", "ua", "1", "same question"⟩, ⟨"p2", "ua", "2", "same question"⟩],
   [⟨"x1", "p1", "yes"⟩, ⟨"x2", "p1", "no"⟩, ⟨"y1", "p2", "yes"⟩, ⟨"y2", "p2", "no"⟩],
   [⟨"v1", "p1", "x1", "u1", "3"⟩]⟩

/-- The check-time store of the vote race: poll p1 with two answers, no
votes yet. -/
def raceCheckStore : Store :=
  ⟨[⟨"u1", none, none⟩],
   [⟨"p1", "u1", "1", "Q?"⟩],
   [⟨"x1", "p1", "yes"⟩, ⟨"x2", "p1", "no"⟩],
   []⟩

/-- The insert-time store of the vote race: the same store after a
concurrent vote by u1 on p1 landed. -/
def raceWriteStore : Store :=
  ⟨[⟨"u1", none, none⟩],
   [⟨"p1", "u1", "1", "Q?"⟩],
   [⟨"x1", "p1", "yes"⟩, ⟨"x2", "p1", "no"⟩],
   [⟨"vx", "p1", "x1", "u1", "2"⟩]⟩

/-- A store with n polls of one author, no votes, used at the pagination
boundary. -/
def nPollStore (n : Nat) : Store :=
  ⟨[], (List.range n).map (fun i => ⟨toString i, "u", toString i, "Q"⟩), [], []⟩

/-- A store reached from the empty database by creating a user, a poll with
two answers, and one vote. -/
def rStore : Store :=
  (createVote (dbCreatePoll (createUser emptyStore "u1" none none).2
    "p1" ["a1", "a2"] "t1" "u1" "Q?" ["x", "y"]).2 "v1" "t2" "u1" "p1" "a1").2

theorem rStore_reachable : Reachable rStore :=
  Reachable.createVote _ "v1" "t2" "u1" "p1" "a1"
    (Reachable.createPoll _ "p1" ["a1", "a2"] "t1" "u1" "Q?" ["x", "y"]
      (Reachable.createUser _ "u1" none none Reachable.init))

-- ========== Claim theorems ==========

/-- C1: under the one-vote-per-poll-per-user invariant, the cross-referenced
vote-count map assigns to each base-poll answer exactly the number of
distinct users who voted that answer on the base poll and voted refAnswerId
on refPollId; an answer chosen by no cohort member is absent from the map;
an empty cohort yields the empty map, not an error; and every cross-reference
attached to a poll-detail response carries exactly this map for its pair. -/
theorem C1_cross_reference_counts (st : Store) (baseId refPollId refAnswerId : String)
    (hu : VoteUniq st.votes) :
    (∀ a, (getCrossReferencedVoteCounts st baseId refPollId refAnswerId).lookup a =
        if (bothVoters st.votes baseId a refPollId refAnswerId).length = 0 then none
        else some ((bothVoters st.votes baseId a refPollId refAnswerId).length)) ∧
    ((∀ u, votedForB st.votes refPollId refAnswerId u = false) →
      getCrossReferencedVoteCounts st baseId refPollId refAnswerId = []) ∧
    (∀ auth pollId query body crs cr,
      getPollDetail st auth pollId query = .ok body →
      body.crossReferences = some crs → cr ∈ crs →
      cr.voteCounts = getCrossReferencedVoteCounts st pollId cr.pollId cr.answerId) := by
  refine ⟨fun a => crossCounts_lookup hu baseId refPollId refAnswerId a,
          fun h => crossCounts_empty_cohort baseId refPollId refAnswerId h, ?_⟩
  intro auth pollId query body crs cr hdet hcrs hcr
  rcases getPollDetail_crossRefs hdet with hnone | ⟨crs0, hpp, hsome⟩
  · rw [hnone] at hcrs
    cases hcrs
  · rw [hsome] at hcrs
    cases hcrs
    exact processPairs_voteCounts st pollId query (pollKeys query) _ hpp cr hcr

/-- C1 witness: on the Cats-or-Dogs fixture, cross-referencing poll A by
(B, b1) gives one vote for a1 and one for a2, and cross-referencing by
(B, b2) with its empty cohort gives the empty map. -/
theorem C1_cross_reference_counts_witness :
    VoteUniq wStore.votes ∧
    (getCrossReferencedVoteCounts wStore "A" "B" "b1").lookup "a1" = some 1 ∧
    (getCrossReferencedVoteCounts wStore "A" "B" "b1").lookup "a2" = some 1 ∧
    getCrossReferencedVoteCounts wStore "A" "B" "b2" = [] := by
  have hu : VoteUniq wStore.votes := by
    unfold VoteUniq
    decide
  refine ⟨hu, ?_, ?_, ?_⟩
  · rw [(C1_cross_reference_counts wStore "A" "B" "b1" hu).1 "a1"]
    decide
  · rw [(C1_cross_reference_counts wStore "A" "B" "b1" hu).1 "a2"]
    decide
  · refine (C1_cross_reference_counts wStore "A" "B" "b2" hu).2.1 ?_
    intro u
    simp [votedForB, wStore]

/-- C4: every store reachable through the database operations has at most
one Vote per (poll_id, user_id) pair: the Votes table is pairwise free of
repeated pairs, and any two votes of one pair are the same row. -/
theorem C4_one_vote_per_poll_user (st : Store) (h : Reachable st) :
    VoteUniq st.votes ∧
    ∀ v ∈ st.votes, ∀ w ∈ st.votes,
      v.poll_id = w.poll_id → v.user_id = w.user_id → v = w := by
  have hu := reachable_voteUniq h
  exact ⟨hu, fun v hv w hw hp hid => voteUniq_eq_of_samePair hu hv hw hp hid⟩

/-- C4 witness: the invariant holds on a store reached by creating a user,
a poll and one vote from the empty database. -/
theorem C4_one_vote_per_poll_user_witness :
    VoteUniq rStore.votes ∧
    ∀ v ∈ rStore.votes, ∀ w ∈ rStore.votes,
      v.poll_id = w.poll_id → v.user_id = w.user_id → v = w :=
  C4_one_vote_per_poll_user rStore rStore_reachable

/-- C5 amended: a duplicate-vote condition that is visible only at insert
time (inside createVote, the store-level pre-check of the uniqueness
constraint) makes createVote return null, which the controller surfaces as
the generic 500 Vote-failed server fault, not AlreadyVoted and not a crash;
the AlreadyVoted outcome with the existing answer attached is produced only
when the duplicate is already visible at the controller pre-check. -/
theorem C5_insert_time_conflict (stCheck stWrite : Store) (user : User)
    (pollId aid voteId createdAt : String) (poll : Poll) (answers : List Answer) (ex : Vote)
    (hpoll : getPollById stCheck pollId = some (poll, answers))
    (hans : answers.any (fun a => a.id == aid) = true)
    (haid : (aid == "") = false)
    (hnv : getUserVote stCheck user.id pollId = none)
    (hex : stWrite.votes.find? (fun v => v.poll_id == pollId && v.user_id == user.id)
      = some ex) :
    (voteOnPollAt stCheck stWrite (some user) pollId (some aid) voteId createdAt =
      (.serverFault "Vote failed" "Failed to record your vote. Please try again.",
       stWrite)) ∧
    (∀ (stc : Store) (poll2 : Poll) (answers2 : List Answer) (ex2 : Vote),
      getPollById stc pollId = some (poll2, answers2) →
      answers2.any (fun a => a.id == aid) = true →
      getUserVote stc user.id pollId = some ex2 →
      voteOnPollAt stc stc (some user) pollId (some aid) voteId createdAt =
        (.alreadyVoted "Already voted" "You have already voted on this poll"
          ex2.answer_id, stc)) := by
  constructor
  · unfold voteOnPollAt
    simp only [Option.getD, haid, Bool.false_eq_true, if_false]
    rw [hpoll]
    simp only [hans, if_true]
    rw [hnv]
    unfold createVote
    rw [hex]
  · intro stc poll2 answers2 ex2 hp2 ha2 hv2
    unfold voteOnPollAt
    simp only [Option.getD, haid, Bool.false_eq_true, if_false]
    rw [hp2]
    simp only [ha2, if_true]
    rw [hv2]

/-- C5 counterexample: with the store that the duplicate-vote check reads
holding no vote and the store that the insert reads holding a concurrent
vote for the same (poll, user) pair, the caller gets the generic 500
Vote-failed fault, not AlreadyVoted. -/
theorem C5_insert_time_conflict_counterexample :
    (voteOnPollAt raceCheckStore raceWriteStore (some ⟨"u1", none, none⟩)
        "p1" (some "x2") "vy" "3").1
      = .serverFault "Vote failed" "Failed to record your vote. Please try again." ∧
    raceWriteStore.votes.find?
        (fun v => v.poll_id == "p1" && v.user_id == "u1")
      = some ⟨"vx", "p1", "x1", "u1", "2"⟩ := by
  decide

/-- C5 witness: the amended theorem applied at the concrete race fixture:
the racer whose check saw no vote gets the 500 fault, while a caller whose
check already sees the concurrent vote gets AlreadyVoted with that answer. -/
theorem C5_insert_time_conflict_witness :
    (voteOnPollAt raceCheckStore raceWriteStore (some ⟨"u1", none, none⟩)
        "p1" (some "x2") "vy" "3" =
      (.serverFault "Vote failed" "Failed to record your vote. Please try again.",
       raceWriteStore)) ∧
    (voteOnPollAt raceWriteStore raceWriteStore (some ⟨"u1", none, none⟩)
        "p1" (some "x2") "vy" "3" =
      (.alreadyVoted "Already voted" "You have already voted on this poll" "x1",
       raceWriteStore)) := by
  have h := C5_insert_time_conflict raceCheckStore raceWriteStore ⟨"u1", none, none⟩
    "p1" "x2" "vy" "3" ⟨"p1", "u1", "1", "Q?"⟩
    [⟨"x1", "p1", "yes"⟩, ⟨"x2", "p1", "no"⟩] ⟨"vx", "p1", "x1", "u1", "2"⟩
    (by decide) (by decide) (by decide) (by decide) (by decide)
  refine ⟨h.1, ?_⟩
  exact h.2 raceWriteStore ⟨"p1", "u1", "1", "Q?"⟩
    [⟨"x1", "p1", "yes"⟩, ⟨"x2", "p1", "no"⟩] ⟨"vx", "p1", "x1", "u1", "2"⟩
    (by decide) (by decide) (by decide)

/-- C2: a reference pair with a missing (or empty) half is silently skipped
and the request succeeds without a crossReferences field; a complete pair
whose referenced poll does not exist, or whose referenced answer does not
belong to the referenced poll, turns the whole request into the
InvalidCrossReference error with no partial results, and poll existence is
checked before answer membership (a missing poll reports poll-not-found for
any answer value); an invalid pair aborts even when an earlier pair was
fully valid. -/
theorem C2_skip_vs_abort (st : Store) (auth : Option User) (baseId : String)
    (poll : Poll) (answers : List Answer)
    (hbase : getPollById st baseId = some (poll, answers)) :
    (∀ query, (∀ k ∈ pollKeys query,
        qget query k = "" ∨ qget query ("a" ++ k.drop 1) = "") →
      getPollDetail st auth baseId query =
        .ok { poll := poll,
              answers := answers,
              author := ((getUserById st poll.author_id).map User.id,
                         (getUserById st poll.author_id).bind User.name),
              voteCounts := getVoteCounts st baseId,
              userVote := (auth.bind (fun u => getUserVote st u.id baseId)).map Vote.answer_id,
              crossReferences := none }) ∧
    (∀ pid aid, (pid == "") = false → (aid == "") = false →
      getPollById st pid = none →
      getPollDetail st auth baseId [("p1", pid), ("a1", aid)] =
        .badRequest "Invalid cross-reference"
          ("Cross-referenced poll (" ++ pid ++ ") not found")) ∧
    (∀ pid aid cp cans, (pid == "") = false → (aid == "") = false →
      getPollById st pid = some (cp, cans) →
      cans.find? (fun a => a.id == aid) = none →
      getPollDetail st auth baseId [("p1", pid), ("a1", aid)] =
        .badRequest "Invalid cross-reference"
          ("Cross-referenced answer (" ++ aid ++ ") does not belong to poll ("
            ++ pid ++ ")")) ∧
    (∀ p1 a1 p2 a2 cp1 cans1 ca1,
      (p1 == "") = false → (a1 == "") = false →
      (p2 == "") = false → (a2 == "") = false →
      getPollById st p1 = some (cp1, cans1) →
      cans1.find? (fun a => a.id == a1) = some ca1 →
      getPollById st p2 = none →
      getPollDetail st auth baseId [("p1", p1), ("a1", a1), ("p2", p2), ("a2", a2)] =
        .badRequest "Invalid cross-reference"
          ("Cross-referenced poll (" ++ p2 ++ ") not found")) := by
  refine ⟨?_, ?_, ?_, ?_⟩
  · intro query hskip
    rw [getPollDetail_eq st auth baseId query poll answers hbase,
      processPairs_skip st baseId query (pollKeys query) hskip]
    rfl
  · intro pid aid hp ha hpoll
    rw [getPollDetail_eq st auth baseId _ poll answers hbase]
    have hkeys : pollKeys [("p1", pid), ("a1", aid)] = ["p1"] := rfl
    rw [hkeys]
    have hq1 : qget [("p1", pid), ("a1", aid)] "p1" = pid := rfl
    have hq2 : qget [("p1", pid), ("a1", aid)] ("a" ++ "p1".drop 1) = aid := rfl
    simp only [processPairs, hq1, hq2, hp, ha, Bool.or_self, Bool.false_eq_true,
      if_false, hpoll]
  · intro pid aid cp cans hp ha hpoll hfind
    rw [getPollDetail_eq st auth baseId _ poll answers hbase]
    have hkeys : pollKeys [("p1", pid), ("a1", aid)] = ["p1"] := rfl
    rw [hkeys]
    have hq1 : qget [("p1", pid), ("a1", aid)] "p1" = pid := rfl
    have hq2 : qget [("p1", pid), ("a1", aid)] ("a" ++ "p1".drop 1) = aid := rfl
    simp only [processPairs, hq1, hq2, hp, ha, Bool.or_self, Bool.false_eq_true,
      if_false, hpoll, hfind]
  · intro p1 a1 p2 a2 cp1 cans1 ca1 hp1 ha1 hp2 ha2 hpoll1 hfind1 hpoll2
    rw [getPollDetail_eq st auth baseId _ poll answers hbase]
    have hkeys : pollKeys [("p1", p1), ("a1", a1), ("p2", p2), ("a2", a2)]
      = ["p1", "p2"] := rfl
    rw [hkeys]
    have hq1 : qget [("p1", p1), ("a1", a1), ("p2", p2), ("a2", a2)] "p1" = p1 := rfl
    have hq2 : qget [("p1", p1), ("a1", a1), ("p2", p2), ("a2", a2)]
      ("a" ++ "p1".drop 1) = a1 := rfl
    have hq3 : qget [("p1", p1), ("a1", a1), ("p2", p2), ("a2", a2)] "p2" = p2 := rfl
    have hq4 : qget [("p1", p1), ("a1", a1), ("p2", p2), ("a2", a2)]
      ("a" ++ "p2".drop 1) = a2 := rfl
    simp only [processPairs, hq1, hq2, hq3, hq4, hp1, ha1, hp2, ha2, Bool.or_self,
      Bool.false_eq_true, if_false, hpoll1, hfind1, hpoll2]

/-- C2 witness: on the Cats-or-Dogs fixture with base poll A, a lone
poll-reference is skipped silently, a nonexistent referenced poll aborts
with poll-not-found even alongside a garbage answer id, a foreign answer id
aborts with the membership error, and a bad second pair aborts despite a
valid first pair. -/
theorem C2_skip_vs_abort_witness :
    getPollDetail wStore none "A" [("p1", "B")] =
      .ok ⟨⟨"A", "u1", "1", "Cats or Dogs?"⟩,
           [⟨"a1", "A", "Cats"⟩, ⟨"a2", "A", "Dogs"⟩],
           (some "u1", none), [("a1", 1), ("a2", 1)], none, none⟩ ∧
    getPollDetail wStore none "A" [("p1", "ZZ"), ("a1", "zz")] =
      .badRequest "Invalid cross-reference" "Cross-referenced poll (ZZ) not found" ∧
    getPollDetail wStore none "A" [("p1", "B"), ("a1", "a1")] =
      .badRequest "Invalid cross-reference"
        "Cross-referenced answer (a1) does not belong to poll (B)" ∧
    getPollDetail wStore none "A" [("p1", "B"), ("a1", "b1"), ("p2", "ZZ"), ("a2", "b1")] =
      .badRequest "Invalid cross-reference" "Cross-referenced poll (ZZ) not found" := by
  have h := C2_skip_vs_abort wStore none "A"
    ⟨"A", "u1", "1", "Cats or Dogs?"⟩
    [⟨"a1", "A", "Cats"⟩, ⟨"a2", "A", "Dogs"⟩] (by decide)
  refine ⟨?_, ?_, ?_, ?_⟩
  · rw [h.1 [("p1", "B")] (by decide)]
    decide
  · rw [h.2.1 "ZZ" "zz" (by decide) (by decide) (by decide)]
    rfl
  · rw [h.2.2.1 "B" "a1" ⟨"B", "u1", "2", "Morning or Night?"⟩
      [⟨"b1", "B", "Morning"⟩, ⟨"b2", "B", "Night"⟩]
      (by decide) (by decide) (by decide) (by decide)]
    rfl
  · rw [h.2.2.2 "B" "b1" "ZZ" "b1" ⟨"B", "u1", "2", "Morning or Night?"⟩
      [⟨"b1", "B", "Morning"⟩, ⟨"b2", "B", "Night"⟩] ⟨"b1", "B", "Morning"⟩
      (by decide) (by decide) (by decide) (by decide) (by decide) (by decide) (by decide)]
    rfl

/-- C7: when the cross-reference loop produces zero valid pairs (none
requested or all skipped), the response carries crossReferences as none
(the field is omitted, not an empty list) while the base poll, its answers,
the author projection, the vote counts and the requester vote are still
returned. -/
theorem C7_zero_pairs_omit_field (st : Store) (auth : Option User) (pollId : String)
    (poll : Poll) (answers : List Answer) (query : List (String × String))
    (hbase : getPollById st pollId = some (poll, answers))
    (hzero : processPairs st pollId query (pollKeys query) = .ok []) :
    getPollDetail st auth pollId query =
      .ok { poll := poll,
            answers := answers,
            author := ((getUserById st poll.author_id).map User.id,
                       (getUserById st poll.author_id).bind User.name),
            voteCounts := getVoteCounts st pollId,
            userVote := (auth.bind (fun u => getUserVote st u.id pollId)).map Vote.answer_id,
            crossReferences := none } := by
  rw [getPollDetail_eq st auth pollId query poll answers hbase, hzero]
  rfl

/-- C7 witness: on the Cats-or-Dogs fixture, a request with no reference
parameters and a request with a half pair both return the base data of A
with no crossReferences field. -/
theorem C7_zero_pairs_omit_field_witness :
    getPollDetail wStore (some ⟨"u1", none, none⟩) "A" [] =
      .ok ⟨⟨"A", "u1", "1", "Cats or Dogs?"⟩,
           [⟨"a1", "A", "Cats"⟩, ⟨"a2", "A", "Dogs"⟩],
           (some "u1", none), [("a1", 1), ("a2", 1)], some "a1", none⟩ ∧
    getPollDetail wStore none "A" [("a1", "b1")] =
      .ok ⟨⟨"A", "u1", "1", "Cats or Dogs?"⟩,
           [⟨"a1", "A", "Cats"⟩, ⟨"a2", "A", "Dogs"⟩],
           (some "u1", none), [("a1", 1), ("a2", 1)], none, none⟩ := by
  constructor
  · rw [C7_zero_pairs_omit_field wStore (some ⟨"u1", none, none⟩) "A"
      ⟨"A", "u1", "1", "Cats or Dogs?"⟩
      [⟨"a1", "A", "Cats"⟩, ⟨"a2", "A", "Dogs"⟩] [] (by decide) rfl]
    decide
  · rw [C7_zero_pairs_omit_field wStore none "A"
      ⟨"A", "u1", "1", "Cats or Dogs?"⟩
      [⟨"a1", "A", "Cats"⟩, ⟨"a2", "A", "Dogs"⟩] [("a1", "b1")] (by decide) rfl]
    decide

theorem bothVoters_self (vs : List Vote) (pid aid : String) :
    bothVoters vs pid aid pid aid = votersOf vs pid aid := by
  unfold bothVoters votersOf
  have hcong : ∀ v ∈ vs,
      (v.poll_id == pid && v.answer_id == aid && votedForB vs pid aid v.user_id)
        = (v.poll_id == pid && v.answer_id == aid) := by
    intro v hv
    by_cases h : (v.poll_id == pid && v.answer_id == aid) = true
    · have hvoted : votedForB vs pid aid v.user_id = true := by
        simp only [Bool.and_eq_true, beq_iff_eq] at h
        exact List.any_eq_true.mpr ⟨v, hv, by simp [h.1, h.2]⟩
      rw [h, hvoted]
      rfl
    · simp only [Bool.not_eq_true] at h
      rw [h, Bool.false_and]
  rw [List.filter_congr hcong]

theorem bothVoters_self_other {vs : List Vote} (hu : VoteUniq vs) (pid aid x : String)
    (hx : (x == aid) = false) : bothVoters vs pid x pid aid = [] := by
  unfold bothVoters
  have hnil : vs.filter (fun v =>
      v.poll_id == pid && v.answer_id == x && votedForB vs pid aid v.user_id) = [] := by
    rw [List.filter_eq_nil_iff]
    intro v hv hpred
    simp only [Bool.and_eq_true, beq_iff_eq] at hpred
    rcases hpred with ⟨⟨hp, hxa⟩, hvoted⟩
    rcases List.any_eq_true.mp hvoted with ⟨w, hw, hwp⟩
    simp only [Bool.and_eq_true, beq_iff_eq] at hwp
    have hwv : w = v :=
      voteUniq_eq_of_samePair hu hw hv (hwp.1.2.trans hp.symm) hwp.1.1
    rw [hwv] at hwp
    rw [hxa] at hwp
    rw [hwp.2] at hx
    simp at hx
  rw [hnil]
  rfl

/-- C10: a reference pair naming the base poll itself is accepted by the
validation (poll exists, answer belongs), and under the vote-uniqueness
invariant the resulting cross-referenced map is the singleton assignment of
the self-referenced answer to its voter count when anyone voted it, and
empty when nobody did: the own answer looks up to its distinct-voter count
(absent when zero) and every other key is absent. -/
theorem C10_self_cross_reference (st : Store) (auth : Option User)
    (pollId aid : String) (poll : Poll) (answers : List Answer) (ans : Answer)
    (hu : VoteUniq st.votes)
    (hbase : getPollById st pollId = some (poll, answers))
    (hfind : answers.find? (fun a => a.id == aid) = some ans)
    (hpid : (pollId == "") = false) (haid : (aid == "") = false) :
    getPollDetail st auth pollId [("p1", pollId), ("a1", aid)] =
      .ok { poll := poll,
            answers := answers,
            author := ((getUserById st poll.author_id).map User.id,
                       (getUserById st poll.author_id).bind User.name),
            voteCounts := getVoteCounts st pollId,
            userVote := (auth.bind (fun u => getUserVote st u.id pollId)).map Vote.answer_id,
            crossReferences := some [⟨pollId, aid, (poll.id, poll.question),
              (ans.id, ans.text),
              getCrossReferencedVoteCounts st pollId pollId aid⟩] } ∧
    ((getCrossReferencedVoteCounts st pollId pollId aid).lookup aid =
      if (votersOf st.votes pollId aid).length = 0 then none
      else some ((votersOf st.votes pollId aid).length)) ∧
    (∀ x, (x == aid) = false →
      (getCrossReferencedVoteCounts st pollId pollId aid).lookup x = none) := by
  refine ⟨?_, ?_, ?_⟩
  · rw [getPollDetail_eq st auth pollId _ poll answers hbase]
    have hkeys : pollKeys [("p1", pollId), ("a1", aid)] = ["p1"] := rfl
    rw [hkeys]
    have hq1 : qget [("p1", pollId), ("a1", aid)] "p1" = pollId := rfl
    have hq2 : qget [("p1", pollId), ("a1", aid)] ("a" ++ "p1".drop 1) = aid := rfl
    simp only [processPairs, hq1, hq2, hpid, haid, Bool.or_self, Bool.false_eq_true,
      if_false, hbase, hfind]
    rfl
  · rw [crossCounts_lookup hu pollId pollId aid aid, bothVoters_self]
  · intro x hx
    rw [crossCounts_lookup hu pollId pollId aid x, bothVoters_self_other hu pollId aid x hx]
    rfl

/-- C10 witness: on the Cats-or-Dogs fixture, referencing poll A by its own
answer a1 is accepted and yields the map assigning a1 its one voter, with
a2 absent. -/
theorem C10_self_cross_reference_witness :
    getPollDetail wStore none "A" [("p1", "A"), ("a1", "a1")] =
      .ok ⟨⟨"A", "u1", "1", "Cats or Dogs?"⟩,
           [⟨"a1", "A", "Cats"⟩, ⟨"a2", "A", "Dogs"⟩],
           (some "u1", none), [("a1", 1), ("a2", 1)], none,
           some [⟨"A", "a1", ("A", "Cats or Dogs?"), ("a1", "Cats"),
             getCrossReferencedVoteCounts wStore "A" "A" "a1"⟩]⟩ ∧
    (getCrossReferencedVoteCounts wStore "A" "A" "a1").lookup "a1" = some 1 ∧
    (getCrossReferencedVoteCounts wStore "A" "A" "a1").lookup "a2" = none := by
  have hu : VoteUniq wStore.votes := by
    unfold VoteUniq
    decide
  have h := C10_self_cross_reference wStore none "A" "a1"
    ⟨"A", "u1", "1", "Cats or Dogs?"⟩
    [⟨"a1", "A", "Cats"⟩, ⟨"a2", "A", "Dogs"⟩] ⟨"a1", "A", "Cats"⟩
    hu (by decide) (by decide) (by decide) (by decide)
  refine ⟨?_, ?_, ?_⟩
  · rw [h.1]
    decide
  · rw [h.2.1]
    decide
  · exact h.2.2 "a2" (by decide)

/-- C3 amended: createPoll rejects a blank question and an answer count
outside 2..10 before any write, leaving the store unchanged, and succeeds
atomically when every answer text is nonblank; but the blank-answer check
runs inside the insertion loop after the poll row and the earlier answers
were written, so a blank answer text aborts with the poll row and the
preceding answer rows persisted (observable partial state at the store
level); the HTTP controller separately pre-rejects requests carrying any
blank answer before reaching the store, so the partial write is not
reachable through the validated request path. -/
theorem C3_create_poll_validation (st : Store) (pollId : String)
    (ids1 : List String) (aidx : String) (ids2 : List String)
    (createdAt authorId question : String)
    (t1 : List String) (bad : String) (t2 : List String)
    (hq : isBlank question = false)
    (hlen1 : ids1.length = t1.length)
    (hcnt1 : ¬(t1 ++ bad :: t2).length < 2)
    (hcnt2 : ¬(t1 ++ bad :: t2).length > 10)
    (ht1 : ∀ t ∈ t1, isBlank t = false)
    (hbad : isBlank bad = true) :
    (dbCreatePoll st pollId (ids1 ++ aidx :: ids2) createdAt authorId question
        (t1 ++ bad :: t2) =
      (.error "Answer text cannot be empty",
       { st with polls := st.polls ++ [⟨pollId, authorId, createdAt, question⟩],
                 answers := st.answers ++ (ids1.zip t1).map (mkAnswer pollId) })) ∧
    (∀ (st2 : Store) (pid2 : String) (ids : List String) (cat au q2 : String)
        (texts : List String), isBlank q2 = true →
      dbCreatePoll st2 pid2 ids cat au q2 texts =
        (.error "Poll question cannot be empty", st2)) ∧
    (∀ (st2 : Store) (pid2 : String) (ids : List String) (cat au q2 : String)
        (texts : List String), isBlank q2 = false → texts.length < 2 →
      dbCreatePoll st2 pid2 ids cat au q2 texts =
        (.error "Poll must have at least 2 answers", st2)) ∧
    (∀ (st2 : Store) (pid2 : String) (ids : List String) (cat au q2 : String)
        (texts : List String), isBlank q2 = false → texts.length > 10 →
      dbCreatePoll st2 pid2 ids cat au q2 texts =
        (.error "Poll cannot have more than 10 answers", st2)) ∧
    (∀ (st2 : Store) (pid2 : String) (ids : List String) (cat au q2 : String)
        (texts : List String), isBlank q2 = false →
      ¬texts.length < 2 → ¬texts.length > 10 →
      (∀ t ∈ texts, isBlank t = false) →
      dbCreatePoll st2 pid2 ids cat au q2 texts =
        (.ok (⟨pid2, au, cat, q2⟩, (ids.zip texts).map (mkAnswer pid2)),
         { st2 with polls := st2.polls ++ [⟨pid2, au, cat, q2⟩],
                    answers := st2.answers ++ (ids.zip texts).map (mkAnswer pid2) })) ∧
    (∀ (st2 : Store) (au : Option User) (q2 : String) (answerTexts : List String)
        (pid2 : String) (ids : List String) (cat : String) (i : Nat),
      isBlank q2 = false → ¬answerTexts.length < 2 → ¬answerTexts.length > 10 →
      answerTexts.findIdx? isBlank = some i →
      createPollController st2 au q2 answerTexts pid2 ids cat =
        (.badRequest "Empty answer" ("Answer option " ++ toString (i + 1) ++ " is empty"),
         st2)) := by
  refine ⟨?_, ?_, ?_, ?_, ?_, ?_⟩
  · unfold dbCreatePoll
    rw [hq]
    simp only [Bool.false_eq_true, if_false, hcnt1, hcnt2, if_false]
    rw [List.zip_append hlen1]
    have hz : (aidx :: ids2).zip (bad :: t2) = (aidx, bad) :: ids2.zip t2 := rfl
    rw [hz]
    have ht1z : ∀ p ∈ ids1.zip t1, isBlank p.2 = false := by
      intro p hp
      exact ht1 p.2 (List.of_mem_zip hp).2
    rw [insertAnswersLoop_blankAbort _ pollId (ids1.zip t1) aidx bad (ids2.zip t2) [] ht1z hbad]
  · intro st2 pid2 ids cat au q2 texts hq2
    unfold dbCreatePoll
    rw [hq2]
    rfl
  · intro st2 pid2 ids cat au q2 texts hq2 hlen
    unfold dbCreatePoll
    rw [hq2]
    simp only [Bool.false_eq_true, if_false, hlen, if_true]
  · intro st2 pid2 ids cat au q2 texts hq2 hlen
    unfold dbCreatePoll
    rw [hq2]
    have hnl : ¬texts.length < 2 := by omega
    simp only [Bool.false_eq_true, if_false, hnl, hlen, if_true]
  · intro st2 pid2 ids cat au q2 texts hq2 hl1 hl2 hall
    unfold dbCreatePoll
    rw [hq2]
    have hallz : ∀ p ∈ ids.zip texts, isBlank p.2 = false := by
      intro p hp
      exact hall p.2 (List.of_mem_zip hp).2
    simp only [Bool.false_eq_true, if_false, hl1, hl2, if_true]
    rw [insertAnswersLoop_ok _ pid2 (ids.zip texts) [] hallz]
    rfl
  · intro st2 au q2 answerTexts pid2 ids cat i hq2 hl1 hl2 hfi
    unfold createPollController
    rw [hq2]
    simp only [Bool.false_eq_true, if_false, hl1, hl2, if_true, hfi]

/-- C3 counterexample: at the store level, creating a poll with answers
ok and blank leaves the error observable together with the poll row and one
answer row: the claim that nothing is persisted on a blank-answer
ValidationError fails. -/
theorem C3_create_poll_validation_counterexample :
    dbCreatePoll emptyStore "P" ["i1", "i2"] "t" "u" "Q?" ["ok", " "] =
      (.error "Answer text cannot be empty",
       ⟨[], [⟨"P", "u", "t", "Q?"⟩], [⟨"i1", "P", "ok"⟩], []⟩) ∧
    (getPollById (dbCreatePoll emptyStore "P" ["i1", "i2"] "t" "u" "Q?" ["ok", " "]).2
        "P").map (fun pr => pr.2.length) = some 1 := by
  constructor
  · rfl
  · rfl

/-- C3 witness: each clause of the amended theorem applied at concrete
inputs: the partial persist on a blank second answer, the pre-write
rejections, the atomic success, and the controller pre-validation. -/
theorem C3_create_poll_validation_witness :
    (dbCreatePoll wStore "P" ["i1", "i2"] "t" "u" "Q?" ["ok", " "] =
      (.error "Answer text cannot be empty",
       { wStore with polls := wStore.polls ++ [⟨"P", "u", "t", "Q?"⟩],
                     answers := wStore.answers ++ [⟨"i1", "P", "ok"⟩] })) ∧
    (dbCreatePoll wStore "P" ["i1", "i2"] "t" "u" " " ["x", "y"] =
      (.error "Poll question cannot be empty", wStore)) ∧
    (dbCreatePoll wStore "P" ["i1"] "t" "u" "Q?" ["x"] =
      (.error "Poll must have at least 2 answers", wStore)) ∧
    (dbCreatePoll wStore "P" ["i1", "i2"] "t" "u" "Q?" ["x", "y"] =
      (.ok (⟨"P", "u", "t", "Q?"⟩, [⟨"i1", "P", "x"⟩, ⟨"i2", "P", "y"⟩]),
       { wStore with polls := wStore.polls ++ [⟨"P", "u", "t", "Q?"⟩],
                     answers := wStore.answers ++ [⟨"i1", "P", "x"⟩, ⟨"i2", "P", "y"⟩] })) ∧
    (createPollController wStore (some ⟨"u1", none, none⟩) "Q?" ["x", " "] "P"
        ["i1", "i2"] "t" =
      (.badRequest "Empty answer" "Answer option 2 is empty", wStore)) := by
  have h := C3_create_poll_validation wStore "P" ["i1"] "i2" [] "t" "u" "Q?"
    ["ok"] " " [] (by decide) (by decide) (by decide) (by decide)
    (by decide) (by decide)
  refine ⟨?_, ?_, ?_, ?_, ?_⟩
  · have h1 := h.1
    rw [show (["i1"] ++ "i2" :: [] : List String) = ["i1", "i2"] from rfl,
      show (["ok"] ++ " " :: [] : List String) = ["ok", " "] from rfl] at h1
    rw [h1]
    rfl
  · exact h.2.1 wStore "P" ["i1", "i2"] "t" "u" " " ["x", "y"] (by decide)
  · exact h.2.2.1 wStore "P" ["i1"] "t" "u" "Q?" ["x"] (by decide) (by decide)
  · have h4 := h.2.2.2.2.1 wStore "P" ["i1", "i2"] "t" "u" "Q?" ["x", "y"]
      (by decide) (by decide) (by decide) (by decide)
    rw [h4]
    rfl
  · have h5 := h.2.2.2.2.2 wStore (some ⟨"u1", none, none⟩) "Q?" ["x", " "] "P"
      ["i1", "i2"] "t" 1 (by decide) (by decide) (by decide) (by decide)
    rw [h5]
    rfl

/-- C6 amended: the feed composer has no voterId filter: the set of polls
getPolls selects never depends on the Votes table; the filters that do
exist are authorId (restricting to polls by that author) and the free-text
query (restricting to questions containing it), and they apply jointly. -/
theorem C6_no_voter_filter :
    (∀ (st : Store) (vs : List Vote) (opts : GetPollsOptions),
      getPolls { st with votes := vs } opts = getPolls st opts) ∧
    (∀ (st : Store) (opts : GetPollsOptions) (pa : Poll × List Answer) (a : String),
      pa ∈ (getPolls st opts).polls → opts.authorId = some a → (a == "") = false →
      pa.1.author_id = a) ∧
    (∀ (st : Store) (opts : GetPollsOptions) (pa : Poll × List Answer) (q : String),
      pa ∈ (getPolls st opts).polls → opts.query = some q → (q == "") = false →
      likeContains q pa.1.question = true) := by
  refine ⟨fun st vs opts => getPolls_votes_indep st vs opts, ?_, ?_⟩
  · intro st opts pa a hmem ha hane
    rcases mem_getPolls hmem with ⟨_, hmat, _⟩
    rw [ha] at hmat
    unfold pollMatches at hmat
    rcases Bool.and_eq_true_iff.mp hmat with ⟨_, h2⟩
    simp only [] at h2
    simp only [hane, Bool.false_eq_true, if_false] at h2
    exact beq_iff_eq.mp h2
  · intro st opts pa q hmem hq hqne
    rcases mem_getPolls hmem with ⟨_, hmat, _⟩
    rw [hq] at hmat
    unfold pollMatches at hmat
    rcases Bool.and_eq_true_iff.mp hmat with ⟨h1, _⟩
    simp only [] at h1
    simp only [hqne, Bool.false_eq_true, if_false] at h1
    exact h1

/-- C6 counterexample: with two polls of which u1 voted only on p1,
supplying voterId in the feed request has no effect: the response lists
p2 as well, a poll u1 never voted on; the claimed voterId filter does not
exist in the code. -/
theorem C6_no_voter_filter_counterexample :
    feedPollIds (getFeed vStore (some ⟨"u1", none, none⟩) [("voterId", "u1")])
      = some ["p2", "p1"] ∧
    vStore.votes.any (fun v => v.user_id == "u1" && v.poll_id == "p2") = false := by
  constructor
  · rfl
  · decide

/-- C6 witness: vote-independence and the two existing filters applied on
the two-poll fixture. -/
theorem C6_no_voter_filter_witness :
    getPolls { vStore with votes := [] } { } = getPolls vStore { } ∧
    (⟨"p2", "ua", "2", "same question"⟩ : Poll).author_id = "ua" ∧
    likeContains "same" "same question" = true := by
  refine ⟨C6_no_voter_filter.1 vStore [] { }, ?_, ?_⟩
  · exact C6_no_voter_filter.2.1 vStore { authorId := some "ua" }
      (⟨"p2", "ua", "2", "same question"⟩, [⟨"y1", "p2", "yes"⟩, ⟨"y2", "p2", "no"⟩])
      "ua" (by decide) rfl (by decide)
  · exact C6_no_voter_filter.2.2 vStore { query := some "same" }
      (⟨"p2", "ua", "2", "same question"⟩, [⟨"y1", "p2", "yes"⟩, ⟨"y2", "p2", "no"⟩])
      "same" (by decide) rfl (by decide)

/-- C8: the candidate search never returns the base poll nor any poll in
the caller-supplied exclusion set, whatever the text query; the same holds
through the searchCrossReferences controller with the exclusions taken from
the poll-reference parameters of the request. -/
theorem C8_candidate_exclusion :
    (∀ (st : Store) (mainPollId : String) (opts : CandidateOptions)
        (pa : Poll × List Answer),
      pa ∈ (getCrossReferenceCandidates st mainPollId opts).polls →
      pa.1.id ≠ mainPollId ∧ pa.1.id ∉ opts.excludePollIds) ∧
    (∀ (st : Store) (pid : String) (query : List (String × String))
        (items : List SearchItem) (pag : Pagination),
      searchCrossReferences st pid query = .ok items pag →
      ∀ it ∈ items, it.poll.id ≠ pid ∧ it.poll.id ∉ excludeIdsOf query) :=
  ⟨fun _ _ _ _ h => candidate_id_excluded h,
   fun _ _ _ _ _ h => searchCR_ok_excludes h⟩

/-- C8 witness: on the two-poll fixture with base p1, the returned
candidate p2 is neither the base nor in the exclusions, at the store level
and through the controller. -/
theorem C8_candidate_exclusion_witness :
    ((⟨"p2", "ua", "2", "same question"⟩ : Poll).id ≠ "p1" ∧
     (⟨"p2", "ua", "2", "same question"⟩ : Poll).id ∉
       ({ excludePollIds := ["zz"] } : CandidateOptions).excludePollIds) ∧
    ((⟨⟨"p2", "ua", "2", "same question"⟩,
       [⟨"y1", "p2", "yes"⟩, ⟨"y2", "p2", "no"⟩], (none, none)⟩ : SearchItem).poll.id
        ≠ "p1" ∧
     (⟨⟨"p2", "ua", "2", "same question"⟩,
       [⟨"y1", "p2", "yes"⟩, ⟨"y2", "p2", "no"⟩], (none, none)⟩ : SearchItem).poll.id
        ∉ excludeIdsOf [("p7", "zz")]) := by
  constructor
  · exact C8_candidate_exclusion.1 vStore "p1" { excludePollIds := ["zz"] }
      (⟨"p2", "ua", "2", "same question"⟩, [⟨"y1", "p2", "yes"⟩, ⟨"y2", "p2", "no"⟩])
      (by decide)
  · refine C8_candidate_exclusion.2 vStore "p1" [("p7", "zz")]
      [⟨⟨"p2", "ua", "2", "same question"⟩,
        [⟨"y1", "p2", "yes"⟩, ⟨"y2", "p2", "no"⟩], (none, none)⟩]
      ⟨1, 10, 0, false⟩ (by decide) _ (by decide)

theorem getFeed_limit50 (st : Store) (auth : Option User) :
    feedHasMore (getFeed st auth [("limit", "50")]) =
      some (decide ((50 : Int) < (st.polls.length : Int))) := by
  unfold getFeed
  have h1 : parseIntParam [("limit", "50")] "limit" 10 = some 50 := rfl
  rw [h1]
  simp only []
  have h2 : ((50 : Int) < 1 || (50 : Int) > 50) = false := by decide
  rw [h2]
  simp only [Bool.false_eq_true, if_false]
  have h3 : parseIntParam [("limit", "50")] "offset" 0 = some 0 := rfl
  rw [h3]
  simp only []
  rw [if_neg (by norm_num : ¬(0 : Int) < 0)]
  have h4 : (qget [("limit", "50")] "sort" == ""
      || qget [("limit", "50")] "sort" == "newest") = true := by decide
  rw [h4]
  simp only [if_true]
  have h5 : getPolls st { limit := 50, offset := 0, sortBy := .newest,
                          query := List.lookup "q" [("limit", "50")],
                          authorId := none }
      = getPolls st { limit := 50, offset := 0, sortBy := .newest } := rfl
  rw [h5, feedHasMore]
  rw [getPolls_totalCount_all]
  norm_num

/-- C9: every successful feed response reports hasMore exactly when
offset plus limit is strictly below the total matching count; with limit 50
and offset 0, a store of exactly 51 polls gives hasMore true and a store of
exactly 50 gives hasMore false. -/
theorem C9_hasMore_boundary :
    (∀ (st : Store) (auth : Option User) (query : List (String × String))
        (items : List FeedItem) (pag : Pagination),
      getFeed st auth query = .ok items pag →
      pag.hasMore = decide ((pag.offset + pag.limit : Int) < (pag.total : Int))) ∧
    (∀ (st : Store) (auth : Option User), st.polls.length = 51 →
      feedHasMore (getFeed st auth [("limit", "50")]) = some true) ∧
    (∀ (st : Store) (auth : Option User), st.polls.length = 50 →
      feedHasMore (getFeed st auth [("limit", "50")]) = some false) := by
  refine ⟨fun _ _ _ _ _ h => getFeed_ok_hasMore h, ?_, ?_⟩
  · intro st auth hlen
    rw [getFeed_limit50, hlen]
    norm_num
  · intro st auth hlen
    rw [getFeed_limit50, hlen]
    norm_num

/-- C9 witness: the boundary clauses applied at stores with exactly 51 and
exactly 50 polls, and the general clause applied on the two-poll fixture. -/
theorem C9_hasMore_boundary_witness :
    feedHasMore (getFeed (nPollStore 51) none [("limit", "50")]) = some true ∧
    feedHasMore (getFeed (nPollStore 50) none [("limit", "50")]) = some false := by
  constructor
  · exact C9_hasMore_boundary.2.1 (nPollStore 51) none
      (by simp [nPollStore])
  · exact C9_hasMore_boundary.2.2 (nPollStore 50) none
      (by simp [nPollStore])
